import Mathlib

/-!
# runc `start`: lifecycle orchestration of one container process

A shallow embedding of `start.go` (package `main` of runc): the `start`
command's action, the `init` re-exec hook and `startContainer`.

`startContainer` is straight-line code over external collaborators
(libcontainer, the cli context, the OS).  Every collaborator is called at most
once in a run, so a run is determined by the value each call yields; those
values are the fields of `World`.  The embedding returns the Go result pair
together with the ordered trace of collaborator calls the run performs.
Deferred calls are kept on a stack and are appended to the trace, most recently
registered first, at every `return`.
-/

namespace Runc

/-! ## Values -/

/-- Go `error` values seen by `start.go`.  `errEmptyID` is the package-level
variable of that name (declared in another file of the package); `errorf` is a
value built by `fmt.Errorf` from a format and its arguments; `ext` is an error
produced by a collaborator, where `notExist` is what `os.IsNotExist` reports on
it. -/
inductive Error where
  | errEmptyID : Error
  | errorf (format : String) (args : List String) : Error
  | ext (msg : String) (notExist : Bool) : Error
  deriving DecidableEq, Repr

/-- The standard library's `os.IsNotExist`, on the error values of the model. -/
def osIsNotExist : Error → Bool
  | .ext _ b => b
  | _ => false

/-- The `specs.Process` template of the loaded specification. -/
structure SpecProcess where
  Terminal : Bool
  Args : List String
  Env : List String
  Cwd : String
  deriving DecidableEq, Repr

/-- The part of `specs.LinuxSpec` read by `start.go`. -/
structure LinuxSpec where
  Process : SpecProcess
  deriving DecidableEq, Repr

/-- An open file (`*os.File`), identified by its descriptor number. -/
structure File where
  fd : Nat
  deriving DecidableEq, Repr

/-- The fields of `libcontainer.Process` that `start.go` and `newProcess` set.
Collaborators receive the same descriptor; the stream wiring they attach to it
is not tracked. -/
structure Process where
  Args : List String
  Env : List String
  User : String
  Cwd : String
  ExtraFiles : List File
  deriving DecidableEq, Repr

/-- The libcontainer configuration built by `createLibcontainerConfig`; only
`Rootfs` is read here. -/
structure Config where
  Rootfs : String
  deriving DecidableEq, Repr

/-- A `libcontainer.Factory` handle. -/
structure Factory where
  handle : Nat
  deriving DecidableEq, Repr

/-- A `libcontainer.Container` handle. -/
structure Container where
  handle : Nat
  deriving DecidableEq, Repr

/-- The TTY/IO handle returned by the IO setup. -/
structure Tty where
  handle : Nat
  deriving DecidableEq, Repr

/-- The `signalHandler` built by `newSignalHandler(tty)`; it wraps the tty,
which its `Close` releases. -/
structure SignalHandler where
  tty : Tty
  deriving DecidableEq, Repr

/-- Constructor `newSignalHandler` (declared in another file of the package). -/
def newSignalHandler (tty : Tty) : SignalHandler := ⟨tty⟩

/-- Signal numbers. -/
abbrev Signal := Nat

/-- The constant `syscall.SIGKILL`. -/
def SIGKILL : Signal := 9

/-- Method `First` of `cli.Args`: the first positional argument, or the empty
string. -/
def First (args : List String) : String := args.headD ""

/-- Collaborator calls, in the order a run performs them. -/
inductive Event where
  | gomaxprocs (n : Nat)
  | lockOSThread
  | libcontainerNew (root : String)
  | startInitialization
  | chdir (dir : String)
  | loadSpec
  | setupSdNotify (spec : LinuxSpec) (notifySocket : String)
  | createLibcontainerConfig (id : String) (spec : LinuxSpec)
  | osStat (path : String)
  | hostUID (config : Config)
  | loadFactory
  | factoryCreate (factory : Factory) (id : String) (config : Config)
  | activationFiles (unsetEnv : Bool)
  | setupIOCall (process : Process) (rootuid : Int) (console : String)
      (createTTY : Bool) (detach : Bool)
  | containerStart (container : Container) (process : Process)
  | createPidFile (path : String) (process : Process)
  | processSignal (process : Process) (sig : Signal)
  | processWait (process : Process)
  | newSignalHandler (tty : Tty)
  | forward (handler : SignalHandler) (process : Process)
  | handlerClose (handler : SignalHandler)
  | destroy (container : Container)
  deriving DecidableEq, Repr

/-- One run's environment: the command line, the launcher's process
environment, and the value each collaborator call yields in this run. -/
structure World where
  /-- Positional arguments, `context.Args()`. -/
  args : List String
  /-- Flag `--bundle`. -/
  bundle : String
  /-- Flag `--console`. -/
  console : String
  /-- Flag `--detach`. -/
  detach : Bool
  /-- Flag `--pid-file`. -/
  pidFile : String
  /-- Error of `os.Chdir(bundle)`, if any. -/
  chdir : Option Error
  /-- Result of `loadSpec(specConfig)`. -/
  loadSpec : Except Error LinuxSpec
  /-- Value of `os.Getenv("NOTIFY_SOCKET")`. -/
  notifySocket : String
  /-- Effect of `setupSdNotify` on the specification it is given. -/
  setupSdNotify : LinuxSpec → String → LinuxSpec
  /-- Value of `os.Geteuid()`. -/
  euid : Int
  /-- Result of `createLibcontainerConfig(id, spec)`. -/
  createLibcontainerConfig : Except Error Config
  /-- Error of `os.Stat(config.Rootfs)`, if any. -/
  osStat : Option Error
  /-- Result of `config.HostUID()`. -/
  hostUID : Except Error Int
  /-- Result of `loadFactory(context)`. -/
  loadFactory : Except Error Factory
  /-- Result of `factory.Create(id, config)`. -/
  factoryCreate : Except Error Container
  /-- Helper `newProcess` (declared in another file of the package). -/
  newProcess : SpecProcess → Process
  /-- Value of `os.Getenv("LISTEN_FDS")`. -/
  listenFdsEnv : String
  /-- Value of `activation.Files(false)`. -/
  activationFiles : List File
  /-- Result of the IO setup call. -/
  setupIOResult : Except Error Tty
  /-- Error of `container.Start(process)`, if any. -/
  containerStart : Option Error
  /-- Error of `createPidFile(pidFile, process)`, if any. -/
  createPidFile : Option Error
  /-- Result pair of `handler.forward(process)`. -/
  forward : Int × Option Error

/-- What a run of `startContainer` returns and does. -/
structure Outcome where
  status : Int
  err : Option Error
  trace : List Event
  deriving DecidableEq, Repr

/-! ## `startContainer` -/

/-- Function `startContainer` of `start.go`.  `t` is the trace so far and
`deferred` the stack of deferred calls, newest first; each `return` runs the
deferred calls after the result pair is fixed. -/
def startContainer (w : World) (spec : LinuxSpec) : Outcome :=
  let id := First w.args
  if id = "" then
    ⟨-1, some Error.errEmptyID, []⟩
  else
    let t := [Event.createLibcontainerConfig id spec]
    match w.createLibcontainerConfig with
    | .error err => ⟨-1, some err, t⟩
    | .ok config =>
      let t := t ++ [Event.osStat config.Rootfs]
      match w.osStat with
      | some err =>
        if osIsNotExist err then
          ⟨-1, some (Error.errorf "rootfs (%q) does not exist" [config.Rootfs]), t⟩
        else
          ⟨-1, some err, t⟩
      | none =>
        let t := t ++ [Event.hostUID config]
        match w.hostUID with
        | .error err => ⟨-1, some err, t⟩
        | .ok rootuid =>
          let t := t ++ [Event.loadFactory]
          match w.loadFactory with
          | .error err => ⟨-1, some err, t⟩
          | .ok factory =>
            let t := t ++ [Event.factoryCreate factory id config]
            match w.factoryCreate with
            | .error err => ⟨-1, some err, t⟩
            | .ok container =>
              let detach := w.detach
              let deferred : List Event :=
                if !detach then [Event.destroy container] else []
              let process := w.newProcess spec.Process
              let (process, t) :=
                if w.listenFdsEnv ≠ "" then
                  let listenFds := w.activationFiles
                  let t := t ++ [Event.activationFiles false]
                  if listenFds.length > 0 then
                    ({ process with
                        Env := process.Env ++
                          ["LISTEN_FDS=" ++ toString listenFds.length, "LISTEN_PID=1"]
                        ExtraFiles := process.ExtraFiles ++ listenFds }, t)
                  else (process, t)
                else (process, t)
              let t := t ++ [Event.setupIOCall process rootuid w.console
                spec.Process.Terminal detach]
              match w.setupIOResult with
              | .error err => ⟨-1, some err, t ++ deferred⟩
              | .ok tty =>
                let t := t ++ [Event.containerStart container process]
                match w.containerStart with
                | some err => ⟨-1, some err, t ++ deferred⟩
                | none =>
                  -- lines 142-147, reached when the pid-file block falls through
                  let rest : List Event → Outcome := fun t =>
                    if detach then
                      ⟨0, none, t ++ deferred⟩
                    else
                      let handler := newSignalHandler tty
                      let t := t ++ [Event.newSignalHandler tty]
                      let deferred := Event.handlerClose handler :: deferred
                      let t := t ++ [Event.forward handler process]
                      ⟨w.forward.1, w.forward.2, t ++ deferred⟩
                  let pidFile := w.pidFile
                  if pidFile ≠ "" then
                    let t := t ++ [Event.createPidFile pidFile process]
                    match w.createPidFile with
                    | some err =>
                      let t := t ++ [Event.processSignal process SIGKILL]
                      let t := t ++ [Event.processWait process]
                      ⟨-1, some err, t ++ deferred⟩
                    | none => rest t
                  else rest t

/-- Calls that come before `container.Start` in program order. -/
def Event.beforeStart : Event → Bool
  | .createLibcontainerConfig _ _ => true
  | .osStat _ => true
  | .hostUID _ => true
  | .loadFactory => true
  | .factoryCreate _ _ _ => true
  | .activationFiles _ => true
  | .setupIOCall _ _ _ _ _ => true
  | _ => false

/-! ## The `start` action and the `init` hook -/

/-- How an activation of `init` or of the `start` action ends. -/
inductive Control where
  /-- Normal return to the caller (for `init`: on to the command dispatch). -/
  | returns : Control
  /-- The process image was replaced by the user's program. -/
  | imageReplaced : Control
  /-- Control entered `fatal(err)`. -/
  | fatal (err : Error) : Control
  /-- Control entered `logrus.Fatal(msg)`. -/
  | logrusFatal (msg : String) : Control
  /-- Control entered `logrus.Fatalf(format, err)`. -/
  | logrusFatalf (format : String) (err : Error) : Control
  /-- Control entered `os.Exit(status)`. -/
  | osExit (status : Int) : Control
  /-- Control entered `panic(msg)`. -/
  | panic (msg : String) : Control
  deriving DecidableEq, Repr

/-- Modelled from the spec: helper `fatal` is declared in another file of the
package; the spec has the failing stage report the error and terminate with a
non-zero status, so control does not come back to the caller. -/
def fatal (err : Error) : Control := Control.fatal err

/-- How an activation ends, and the collaborator calls it made. -/
structure Activation where
  control : Control
  trace : List Event
  deriving DecidableEq, Repr

/-- Outcomes of `factory.StartInitialization()`: on success it replaces the
process image and never returns; otherwise it returns an error, or (against its
contract) returns nil. -/
inductive InitRoutine where
  | replacesImage : InitRoutine
  | returnsError (err : Error) : InitRoutine
  | returnsNil : InitRoutine
  deriving DecidableEq, Repr

/-- Function `init` of `start.go`, run before command dispatch.  `osArgs` is
`os.Args`; the error result of `libcontainer.New("")` is discarded by the
source. -/
def init (osArgs : List String) (startInitialization : InitRoutine) : Activation :=
  if osArgs.length > 1 ∧ osArgs.getD 1 "" = "init" then
    let t := [Event.gomaxprocs 1, Event.lockOSThread, Event.libcontainerNew "",
      Event.startInitialization]
    match startInitialization with
    | .replacesImage => ⟨Control.imageReplaced, t⟩
    | .returnsError err => ⟨fatal err, t⟩
    | .returnsNil =>
      ⟨Control.panic "--this line should have never been executed, congratulations--", t⟩
  else
    ⟨Control.returns, []⟩

/-- The `Action` of `startCommand`. -/
def startCommandAction (w : World) : Activation :=
  -- lines 50-70, reached when the bundle block falls through
  let rest : List Event → Activation := fun t =>
    let t := t ++ [Event.loadSpec]
    match w.loadSpec with
    | .error err => ⟨fatal err, t⟩
    | .ok spec =>
      let notifySocket := w.notifySocket
      let (spec, t) :=
        if notifySocket ≠ "" then
          (w.setupSdNotify spec notifySocket, t ++ [Event.setupSdNotify spec notifySocket])
        else (spec, t)
      if w.euid ≠ 0 then
        ⟨Control.logrusFatal "runc should be run as root", t⟩
      else
        let r := startContainer w spec
        match r.err with
        | some err => ⟨Control.logrusFatalf "Container start failed: %v" err, t ++ r.trace⟩
        | none => ⟨Control.osExit r.status, t ++ r.trace⟩
  let bundle := w.bundle
  if bundle ≠ "" then
    let t := [Event.chdir bundle]
    match w.chdir with
    | some err => ⟨fatal err, t⟩
    | none => rest t
  else rest []

/-! ## Example runs -/

/-- A specification with a two-entry environment. -/
def demoSpec : LinuxSpec :=
  ⟨⟨false, ["sh"], ["PATH=/bin", "TERM=xterm"], "/"⟩⟩

/-- A `newProcess` that copies arguments, environment and working directory
from the template. -/
def demoNewProcess (p : SpecProcess) : Process :=
  ⟨p.Args, p.Env, "0:0", p.Cwd, []⟩

/-- The descriptor `demoNewProcess` builds from `demoSpec`. -/
def demoProcess : Process :=
  ⟨["sh"], ["PATH=/bin", "TERM=xterm"], "0:0", "/", []⟩

/-- An attached run of container `c1` in which every collaborator succeeds and
the contained process exits with status 0. -/
def demoWorld : World where
  args := ["c1"]
  bundle := ""
  console := ""
  detach := false
  pidFile := ""
  chdir := none
  loadSpec := .ok demoSpec
  notifySocket := ""
  setupSdNotify := fun s _ => s
  euid := 0
  createLibcontainerConfig := .ok ⟨"/rootfs"⟩
  osStat := none
  hostUID := .ok 0
  loadFactory := .ok ⟨1⟩
  factoryCreate := .ok ⟨7⟩
  newProcess := demoNewProcess
  listenFdsEnv := ""
  activationFiles := []
  setupIOResult := .ok ⟨3⟩
  containerStart := none
  createPidFile := none
  forward := (0, none)

/-- A run without positional arguments. -/
def emptyIdWorld : World :=
  { demoWorld with args := [] }

/-- The run of `demoWorld` with a pid file requested whose write fails. -/
def pidFileFailureWorld : World :=
  { demoWorld with
    pidFile := "/run/c1.pid"
    createPidFile := some (Error.ext "disk full" false) }

/-- The run of `demoWorld` in detached mode. -/
def detachedWorld : World :=
  { demoWorld with detach := true }

/-- An attached run in which `container.Start` fails. -/
def startFailureWorld : World :=
  { demoWorld with containerStart := some (Error.ext "exec format error" false) }

/-- A detached run in which `container.Start` fails. -/
def detachedStartFailureWorld : World :=
  { demoWorld with
    detach := true
    containerStart := some (Error.ext "exec format error" false) }

/-- An attached run whose rootfs is missing. -/
def missingRootfsWorld : World :=
  { demoWorld with osStat := some (Error.ext "stat /rootfs: no such file" true) }

/-- An attached run under socket activation with two inherited descriptors,
whose contained process exits with status 3. -/
def activatedWorld : World :=
  { demoWorld with
    listenFdsEnv := "2"
    activationFiles := [⟨3⟩, ⟨4⟩]
    forward := (3, none) }

/-- The descriptor of `demoSpec` after socket activation with descriptors 3
and 4. -/
def activatedProcess : Process :=
  ⟨["sh"], ["PATH=/bin", "TERM=xterm", "LISTEN_FDS=2", "LISTEN_PID=1"], "0:0", "/",
    [⟨3⟩, ⟨4⟩]⟩

/-- An attached run whose IO setup fails. -/
def ioFailureWorld : World :=
  { demoWorld with setupIOResult := .error (Error.ext "no console" false) }

/-! ## Theorems -/

/-- Shape of a run: either it ends at or before a failed `factory.Create`, or
every step through `factory.Create` succeeds and the rest of the run is
determined by the remaining collaborator results. -/
theorem run_shape (w : World) (spec : LinuxSpec) :
    ((∀ e ∈ (startContainer w spec).trace, Event.beforeStart e = true) ∧
      ((∃ f i k, Event.factoryCreate f i k ∈ (startContainer w spec).trace) →
        ∃ err, w.factoryCreate = .error err)) ∨
    (∃ cfg uid f c P A D pre,
      First w.args ≠ "" ∧ w.createLibcontainerConfig = .ok cfg ∧ w.osStat = none ∧
      w.hostUID = .ok uid ∧ w.loadFactory = .ok f ∧ w.factoryCreate = .ok c ∧
      P = (if w.listenFdsEnv ≠ "" ∧ 0 < w.activationFiles.length then
          { w.newProcess spec.Process with
            Env := (w.newProcess spec.Process).Env ++
              ["LISTEN_FDS=" ++ toString w.activationFiles.length, "LISTEN_PID=1"]
            ExtraFiles := (w.newProcess spec.Process).ExtraFiles ++ w.activationFiles }
        else w.newProcess spec.Process) ∧
      A = (if w.listenFdsEnv ≠ "" then [Event.activationFiles false] else []) ∧
      D = (if w.detach then [] else [Event.destroy c]) ∧
      pre = [Event.createLibcontainerConfig (First w.args) spec, Event.osStat cfg.Rootfs,
          Event.hostUID cfg, Event.loadFactory, Event.factoryCreate f (First w.args) cfg] ++ A ++
        [Event.setupIOCall P uid w.console spec.Process.Terminal w.detach] ∧
      startContainer w spec =
        match w.setupIOResult with
        | .error e => ⟨-1, some e, pre ++ D⟩
        | .ok tty =>
          match w.containerStart with
          | some e => ⟨-1, some e, pre ++ [Event.containerStart c P] ++ D⟩
          | none =>
            match (if w.pidFile ≠ "" then w.createPidFile else none) with
            | some e => ⟨-1, some e, pre ++ [Event.containerStart c P,
                Event.createPidFile w.pidFile P, Event.processSignal P SIGKILL,
                Event.processWait P] ++ D⟩
            | none =>
              if w.detach then
                ⟨0, none, pre ++ [Event.containerStart c P] ++
                  (if w.pidFile ≠ "" then [Event.createPidFile w.pidFile P] else [])⟩
              else
                ⟨w.forward.1, w.forward.2, pre ++ [Event.containerStart c P] ++
                  (if w.pidFile ≠ "" then [Event.createPidFile w.pidFile P] else []) ++
                  [Event.newSignalHandler tty, Event.forward (newSignalHandler tty) P,
                    Event.handlerClose (newSignalHandler tty), Event.destroy c]⟩) := by
  by_cases hid : First w.args = ""
  · left; simp [startContainer, hid]
  cases hcfg : w.createLibcontainerConfig with
  | error e => left; simp [startContainer, hid, hcfg, Event.beforeStart]
  | ok cfg =>
  cases hstat : w.osStat with
  | some e =>
    left
    by_cases hne : osIsNotExist e = true <;>
      simp [startContainer, hid, hcfg, hstat, hne, Event.beforeStart]
  | none =>
  cases huid : w.hostUID with
  | error e => left; simp [startContainer, hid, hcfg, hstat, huid, Event.beforeStart]
  | ok uid =>
  cases hf : w.loadFactory with
  | error e => left; simp [startContainer, hid, hcfg, hstat, huid, hf, Event.beforeStart]
  | ok f =>
  cases hc : w.factoryCreate with
  | error e => left; simp [startContainer, hid, hcfg, hstat, huid, hf, hc, Event.beforeStart]
  | ok c =>
  right
  refine ⟨cfg, uid, f, c, _, _, _, _, hid, rfl, rfl, rfl, rfl, rfl, rfl, rfl, rfl, rfl, ?_⟩
  unfold startContainer
  simp only [hid, hcfg, hstat, huid, hf, hc, if_false]
  by_cases hl : w.listenFdsEnv = "" <;> by_cases hk : 0 < w.activationFiles.length <;>
    cases hio : w.setupIOResult <;> cases hst : w.containerStart <;>
    by_cases hp : w.pidFile = "" <;> cases hcp : w.createPidFile <;>
    cases hd : w.detach <;> simp [*]

/-- Shape of a run that calls `container.Start`. -/
theorem start_shape (w : World) (spec : LinuxSpec) (c : Container) (p : Process)
    (hstart : Event.containerStart c p ∈ (startContainer w spec).trace) :
    ∃ pre tty, (∀ e ∈ pre, Event.beforeStart e = true) ∧
      w.factoryCreate = .ok c ∧ w.setupIOResult = .ok tty ∧
      startContainer w spec =
        match w.containerStart with
        | some e => ⟨-1, some e, pre ++ [Event.containerStart c p] ++
            (if w.detach then [] else [Event.destroy c])⟩
        | none =>
          match (if w.pidFile ≠ "" then w.createPidFile else none) with
          | some e => ⟨-1, some e, pre ++ [Event.containerStart c p,
              Event.createPidFile w.pidFile p, Event.processSignal p SIGKILL,
              Event.processWait p] ++ (if w.detach then [] else [Event.destroy c])⟩
          | none =>
            if w.detach then
              ⟨0, none, pre ++ [Event.containerStart c p] ++
                (if w.pidFile ≠ "" then [Event.createPidFile w.pidFile p] else [])⟩
            else
              ⟨w.forward.1, w.forward.2, pre ++ [Event.containerStart c p] ++
                (if w.pidFile ≠ "" then [Event.createPidFile w.pidFile p] else []) ++
                [Event.newSignalHandler tty, Event.forward (newSignalHandler tty) p,
                  Event.handlerClose (newSignalHandler tty), Event.destroy c]⟩ := by
  rcases run_shape w spec with ⟨hearly, -⟩ |
    ⟨cfg, uid, f, c', P, A, D, pre, hid, hcfg, hstat, huid, hf, hc, hP, hA, hD, hpre, hrun⟩
  · have := hearly _ hstart
    simp [Event.beforeStart] at this
  · have hpre' : ∀ e ∈ pre, Event.beforeStart e = true := by
      subst hpre hA
      by_cases hl : w.listenFdsEnv = "" <;> simp [hl, Event.beforeStart]
    cases hio : w.setupIOResult with
    | error e =>
      rw [hrun, hio] at hstart
      subst hD
      have hn : Event.containerStart c p ∉ pre := fun hm => by
        have := hpre' _ hm
        simp [Event.beforeStart] at this
      cases hd : w.detach <;> simp [hd, hn] at hstart
    | ok tty =>
      have hcp : c = c' ∧ p = P := by
        rw [hrun, hio] at hstart
        subst hD
        have hn : Event.containerStart c p ∉ pre := fun hm => by
          have := hpre' _ hm
          simp [Event.beforeStart] at this
        cases hst : w.containerStart <;> by_cases hp : w.pidFile = "" <;>
          cases hcp : w.createPidFile <;> cases hd : w.detach <;>
          simp [hst, hp, hcp, hd, hn] at hstart <;> exact hstart
      obtain ⟨rfl, rfl⟩ := hcp
      refine ⟨pre, tty, hpre', hc, rfl, ?_⟩
      rw [hrun, hio]
      simp only [hD]

/-- After a successful `factory.Create` of `c`, the run is a body without any
destroy call, followed by the deferred destroy of `c` unless detached; a
`forward` call in the body is followed only by the close of its handler. -/
theorem created_shape (w : World) (spec : LinuxSpec)
    (f : Factory) (i : String) (cfg : Config) (c : Container)
    (hcreate : Event.factoryCreate f i cfg ∈ (startContainer w spec).trace)
    (hc : w.factoryCreate = .ok c) :
    ∃ body, (startContainer w spec).trace =
        body ++ (if w.detach then [] else [Event.destroy c]) ∧
      (∀ k, Event.destroy k ∉ body) ∧
      (∀ h q, Event.forward h q ∈ body →
        w.detach = false ∧ ∃ pre, body = pre ++ [Event.forward h q, Event.handlerClose h]) := by
  rcases run_shape w spec with ⟨-, hfail⟩ |
    ⟨cfg', uid, f', c', P, A, D, pre, -, -, -, -, -, hc', hP, hA, hD, hpre, hrun⟩
  · obtain ⟨err, herr⟩ := hfail ⟨f, i, cfg, hcreate⟩
    rw [hc] at herr
    cases herr
  · obtain rfl : c' = c := by
      rw [hc] at hc'
      injection hc' with h
      exact h.symm
    clear hcreate
    have hpre' : ∀ e ∈ pre, Event.beforeStart e = true := by
      subst hpre hA
      by_cases hl : w.listenFdsEnv = "" <;> simp [hl, Event.beforeStart]
    have hn : ∀ e, Event.beforeStart e = false → e ∉ pre := fun e he hm => by
      have := hpre' _ hm
      simp [he] at this
    have hnd : ∀ k, Event.destroy k ∉ pre := fun k => hn _ rfl
    have hnf : ∀ h q, Event.forward h q ∉ pre := fun h q => hn _ rfl
    rw [hrun, hD]
    cases hio : w.setupIOResult with
    | error e => exact ⟨pre, rfl, hnd, fun h q hm => absurd hm (hnf h q)⟩
    | ok tty =>
      cases hst : w.containerStart with
      | some e =>
        refine ⟨pre ++ [Event.containerStart c' P], rfl, ?_, ?_⟩
        · intro k; simp [hnd]
        · intro h q; simp [hnf]
      | none =>
        by_cases hp : w.pidFile = ""
        · cases hd : w.detach
          · refine ⟨pre ++ [Event.containerStart c' P] ++ [Event.newSignalHandler tty,
              Event.forward (newSignalHandler tty) P,
              Event.handlerClose (newSignalHandler tty)], by simp [hp], ?_, ?_⟩
            · intro k; simp [hnd]
            · intro h q hm
              simp [hnf] at hm
              obtain ⟨rfl, rfl⟩ := hm
              exact ⟨rfl, pre ++ [Event.containerStart c' q, Event.newSignalHandler tty],
                by simp⟩
          · refine ⟨pre ++ [Event.containerStart c' P], by simp [hp], ?_, ?_⟩
            · intro k; simp [hnd]
            · intro h q; simp [hnf]
        · cases hcp : w.createPidFile with
          | some e =>
            refine ⟨pre ++ [Event.containerStart c' P, Event.createPidFile w.pidFile P,
              Event.processSignal P SIGKILL, Event.processWait P], by simp [hp], ?_, ?_⟩
            · intro k; simp [hnd]
            · intro h q; simp [hnf]
          | none =>
            cases hd : w.detach
            · refine ⟨pre ++ [Event.containerStart c' P, Event.createPidFile w.pidFile P,
                Event.newSignalHandler tty, Event.forward (newSignalHandler tty) P,
                Event.handlerClose (newSignalHandler tty)], by simp [hp], ?_, ?_⟩
              · intro k; simp [hnd]
              · intro h q hm
                simp [hnf] at hm
                obtain ⟨rfl, rfl⟩ := hm
                exact ⟨rfl, pre ++ [Event.containerStart c' q, Event.createPidFile w.pidFile q,
                  Event.newSignalHandler tty], by simp⟩
            · refine ⟨pre ++ [Event.containerStart c' P, Event.createPidFile w.pidFile P],
                by simp [hp], ?_, ?_⟩
              · intro k; simp [hnd]
              · intro h q; simp [hnf]

/-- C9: when the first positional argument (the container identifier) is
empty, `startContainer` returns status -1 with `errEmptyID` and performs no
collaborator call at all: the trace of the run is empty, so no configuration
is built, no rootfs stat is made, no factory is loaded, and there is no Create,
Start or destroy. -/
theorem startContainer_empty_id (w : World) (spec : LinuxSpec)
    (hid : First w.args = "") :
    startContainer w spec = ⟨-1, some Error.errEmptyID, []⟩ := by
  simp [startContainer, hid]

/-- Witness for C9: a run without positional arguments. -/
theorem startContainer_empty_id_witness :
    First emptyIdWorld.args = "" ∧
    startContainer emptyIdWorld demoSpec = ⟨-1, some Error.errEmptyID, []⟩ :=
  ⟨by decide, startContainer_empty_id emptyIdWorld demoSpec (by decide)⟩

/-- C1: in every run (detached or not) in which `container.Start` is called
and succeeds, a non-empty pid-file path is given and `createPidFile` fails with
`e`, the run returns status -1 with exactly `e`; after the failed write it
sends SIGKILL to the started process and then waits for it, both before
returning (only the deferred destroy of an attached run follows); and no signal
handler is created and `forward` is never called. -/
theorem pidfile_failure_kills_and_waits (w : World) (spec : LinuxSpec)
    (c : Container) (p : Process) (e : Error)
    (hstart : Event.containerStart c p ∈ (startContainer w spec).trace)
    (hok : w.containerStart = none)
    (hpid : w.pidFile ≠ "")
    (herr : w.createPidFile = some e) :
    (startContainer w spec).status = -1 ∧ (startContainer w spec).err = some e ∧
    (∃ pre, (startContainer w spec).trace = pre ++ [Event.containerStart c p,
        Event.createPidFile w.pidFile p, Event.processSignal p SIGKILL,
        Event.processWait p] ++ (if w.detach then [] else [Event.destroy c])) ∧
    (∀ t, Event.newSignalHandler t ∉ (startContainer w spec).trace) ∧
    (∀ h q, Event.forward h q ∉ (startContainer w spec).trace) := by
  obtain ⟨pre, tty, hpre, -, -, hrun⟩ := start_shape w spec c p hstart
  rw [hrun]
  simp only [hok, hpid, herr, ne_eq, not_false_eq_true, if_true]
  refine ⟨by trivial, by trivial, ⟨pre, rfl⟩, ?_, ?_⟩
  · intro t hm
    have hn : Event.newSignalHandler t ∉ pre := fun h => by
      have := hpre _ h
      simp [Event.beforeStart] at this
    cases hd : w.detach <;> simp [hd, hn] at hm
  · intro h q hm
    have hn : Event.forward h q ∉ pre := fun h => by
      have := hpre _ h
      simp [Event.beforeStart] at this
    cases hd : w.detach <;> simp [hd, hn] at hm

/-- Witness for C1: an attached run whose pid-file write fails. -/
theorem pidfile_failure_kills_and_waits_witness :
    startContainer pidFileFailureWorld demoSpec =
      ⟨-1, some (Error.ext "disk full" false),
        [Event.createLibcontainerConfig "c1" demoSpec, Event.osStat "/rootfs",
          Event.hostUID ⟨"/rootfs"⟩, Event.loadFactory,
          Event.factoryCreate ⟨1⟩ "c1" ⟨"/rootfs"⟩,
          Event.setupIOCall demoProcess 0 "" false false,
          Event.containerStart ⟨7⟩ demoProcess,
          Event.createPidFile "/run/c1.pid" demoProcess,
          Event.processSignal demoProcess SIGKILL, Event.processWait demoProcess,
          Event.destroy ⟨7⟩]⟩ ∧
    ∀ h q, Event.forward h q ∉ (startContainer pidFileFailureWorld demoSpec).trace :=
  ⟨by decide, (pidfile_failure_kills_and_waits pidFileFailureWorld demoSpec ⟨7⟩ demoProcess
    (Error.ext "disk full" false) (by decide) rfl (by decide) rfl).2.2.2.2⟩

/-- C8: in every run with a non-empty identifier whose configuration builds to
`cfg` and in which `os.Stat(cfg.Rootfs)` fails with `e`, `startContainer`
returns status -1 after exactly two collaborator calls (building the
configuration, the stat); the error is the dedicated "rootfs (%q) does not
exist" value naming `cfg.Rootfs` when `os.IsNotExist e`, and `e` itself
otherwise; `factory.Create` and `container.Start` are never called. -/
theorem missing_rootfs_fails_before_create (w : World) (spec : LinuxSpec)
    (cfg : Config) (e : Error)
    (hid : First w.args ≠ "")
    (hcfg : w.createLibcontainerConfig = .ok cfg)
    (hstat : w.osStat = some e) :
    startContainer w spec =
      ⟨-1, some (if osIsNotExist e then
          Error.errorf "rootfs (%q) does not exist" [cfg.Rootfs] else e),
        [Event.createLibcontainerConfig (First w.args) spec, Event.osStat cfg.Rootfs]⟩ ∧
    (∀ f i k, Event.factoryCreate f i k ∉ (startContainer w spec).trace) ∧
    (∀ c p, Event.containerStart c p ∉ (startContainer w spec).trace) := by
  unfold startContainer
  by_cases hne : osIsNotExist e = true <;> simp [hid, hcfg, hstat, hne]

/-- Witness for C8: the rootfs of container `c1` does not exist. -/
theorem missing_rootfs_fails_before_create_witness :
    startContainer missingRootfsWorld demoSpec =
      ⟨-1, some (Error.errorf "rootfs (%q) does not exist" ["/rootfs"]),
        [Event.createLibcontainerConfig "c1" demoSpec, Event.osStat "/rootfs"]⟩ :=
  (missing_rootfs_fails_before_create missingRootfsWorld demoSpec ⟨"/rootfs"⟩
    (Error.ext "stat /rootfs: no such file" true) (by decide) rfl rfl).1

/-- C2, as the code has it: in every run in which `container.Start` is called
on the created container `c` and fails with `e`, the run returns status -1 with
`e`, whatever the detach flag; when the detach flag is false, destroy is called
on `c` right after the failed Start and is the last call of the run; when the
detach flag is true, no destroy is scheduled and none is called. -/
theorem start_failure_destroys_unless_detached (w : World) (spec : LinuxSpec)
    (c : Container) (p : Process) (e : Error)
    (hstart : Event.containerStart c p ∈ (startContainer w spec).trace)
    (herr : w.containerStart = some e) :
    (startContainer w spec).status = -1 ∧ (startContainer w spec).err = some e ∧
    w.factoryCreate = .ok c ∧
    (w.detach = false → ∃ pre, (startContainer w spec).trace =
        pre ++ [Event.containerStart c p, Event.destroy c]) ∧
    (w.detach = true → ∀ k, Event.destroy k ∉ (startContainer w spec).trace) := by
  obtain ⟨pre, tty, hpre, hc, -, hrun⟩ := start_shape w spec c p hstart
  rw [hrun]
  simp only [herr]
  refine ⟨by trivial, by trivial, hc, ?_, ?_⟩
  · intro hd
    exact ⟨pre, by simp [hd]⟩
  · intro hd k hm
    have hn : Event.destroy k ∉ pre := fun h => by
      have := hpre _ h
      simp [Event.beforeStart] at this
    simp [hd, hn] at hm

/-- Witness for C2 as amended: an attached run whose Start fails destroys the
container it created. -/
theorem start_failure_destroys_unless_detached_witness :
    Event.containerStart ⟨7⟩ demoProcess ∈ (startContainer startFailureWorld demoSpec).trace ∧
    ∃ pre, (startContainer startFailureWorld demoSpec).trace =
      pre ++ [Event.containerStart ⟨7⟩ demoProcess, Event.destroy ⟨7⟩] :=
  ⟨by decide, (start_failure_destroys_unless_detached startFailureWorld demoSpec ⟨7⟩
    demoProcess (Error.ext "exec format error" false) (by decide) rfl).2.2.2.1 rfl⟩

/-- Counterexample to C2 as stated: a detached run in which `factory.Create`
succeeds with container 7 and `container.Start` fails returns the Start error
with status -1, and its last call is the failed Start: destroy is not called. -/
theorem start_failure_detached_skips_destroy :
    detachedStartFailureWorld.factoryCreate = .ok ⟨7⟩ ∧
    detachedStartFailureWorld.containerStart = some (Error.ext "exec format error" false) ∧
    startContainer detachedStartFailureWorld demoSpec =
      ⟨-1, some (Error.ext "exec format error" false),
        [Event.createLibcontainerConfig "c1" demoSpec, Event.osStat "/rootfs",
          Event.hostUID ⟨"/rootfs"⟩, Event.loadFactory,
          Event.factoryCreate ⟨1⟩ "c1" ⟨"/rootfs"⟩,
          Event.setupIOCall demoProcess 0 "" false true,
          Event.containerStart ⟨7⟩ demoProcess]⟩ ∧
    Event.destroy ⟨7⟩ ∉ (startContainer detachedStartFailureWorld demoSpec).trace :=
  ⟨rfl, rfl, by decide, by decide⟩

/-- C4: in every run with the detach flag set in which `container.Start` is
called and succeeds and the pid-file write, when a path is given, succeeds,
`startContainer` returns `(0, nil)` at once: the last call of the run is the
Start (or the pid-file write), no signal handler is created, `forward` and
`process.Wait` are never called, and destroy is never called. -/
theorem detach_returns_immediately (w : World) (spec : LinuxSpec)
    (c : Container) (p : Process)
    (hd : w.detach = true)
    (hstart : Event.containerStart c p ∈ (startContainer w spec).trace)
    (hok : w.containerStart = none)
    (hpid : w.pidFile ≠ "" → w.createPidFile = none) :
    (startContainer w spec).status = 0 ∧ (startContainer w spec).err = none ∧
    (startContainer w spec).trace.getLast? =
      some (if w.pidFile ≠ "" then Event.createPidFile w.pidFile p
        else Event.containerStart c p) ∧
    (∀ t, Event.newSignalHandler t ∉ (startContainer w spec).trace) ∧
    (∀ h q, Event.forward h q ∉ (startContainer w spec).trace) ∧
    (∀ q, Event.processWait q ∉ (startContainer w spec).trace) ∧
    (∀ k, Event.destroy k ∉ (startContainer w spec).trace) := by
  obtain ⟨pre, tty, hpre, -, -, hrun⟩ := start_shape w spec c p hstart
  have hpf : (if w.pidFile ≠ "" then w.createPidFile else none) = none := by
    by_cases hp : w.pidFile = ""
    · simp [hp]
    · simp [hp, hpid hp]
  rw [hrun]
  simp only [hok, hpf, hd, if_true]
  have hn : ∀ e, Event.beforeStart e = false → e ∉ pre := fun e he hm => by
    have := hpre _ hm
    simp [he] at this
  refine ⟨by trivial, by trivial, ?_, ?_, ?_, ?_, ?_⟩
  · by_cases hp : w.pidFile = "" <;> simp [hp]
  · intro t hm
    by_cases hp : w.pidFile = "" <;> simp [hp, hn (Event.newSignalHandler t) rfl] at hm
  · intro h q hm
    by_cases hp : w.pidFile = "" <;> simp [hp, hn (Event.forward h q) rfl] at hm
  · intro q hm
    by_cases hp : w.pidFile = "" <;> simp [hp, hn (Event.processWait q) rfl] at hm
  · intro k hm
    by_cases hp : w.pidFile = "" <;> simp [hp, hn (Event.destroy k) rfl] at hm

/-- Witness for C4: the detached run of container `c1`. -/
theorem detach_returns_immediately_witness :
    startContainer detachedWorld demoSpec =
      ⟨0, none,
        [Event.createLibcontainerConfig "c1" demoSpec, Event.osStat "/rootfs",
          Event.hostUID ⟨"/rootfs"⟩, Event.loadFactory,
          Event.factoryCreate ⟨1⟩ "c1" ⟨"/rootfs"⟩,
          Event.setupIOCall demoProcess 0 "" false true,
          Event.containerStart ⟨7⟩ demoProcess]⟩ ∧
    ∀ k, Event.destroy k ∉ (startContainer detachedWorld demoSpec).trace :=
  ⟨by decide, (detach_returns_immediately detachedWorld demoSpec ⟨7⟩ demoProcess rfl
    (by decide) rfl (by decide)).2.2.2.2.2.2⟩

/-- The forwarding path releases the handle: in every attached run (detach flag
false) in which the IO setup returns the handle `tty`, `container.Start`
succeeds and the pid-file write, when a path is given, succeeds, the handle is
wrapped in a signal handler, and that handler is closed exactly once, after
`forward` returns and before the deferred destroy, the last call of the run.
This is the sibling path that the failure paths of
`tty_not_released_off_forwarding_path` fall short of. -/
theorem attached_forwarding_releases_tty (w : World) (spec : LinuxSpec)
    (c : Container) (p : Process) (tty : Tty)
    (hd : w.detach = false)
    (hio : w.setupIOResult = .ok tty)
    (hstart : Event.containerStart c p ∈ (startContainer w spec).trace)
    (hok : w.containerStart = none)
    (hpid : w.pidFile ≠ "" → w.createPidFile = none) :
    (∃ pre, (startContainer w spec).trace =
      pre ++ [Event.newSignalHandler tty, Event.forward (newSignalHandler tty) p,
        Event.handlerClose (newSignalHandler tty), Event.destroy c]) ∧
    (startContainer w spec).trace.count (Event.handlerClose (newSignalHandler tty)) = 1 := by
  obtain ⟨pre, tty', hpre, -, hio', hrun⟩ := start_shape w spec c p hstart
  obtain rfl : tty' = tty := by
    rw [hio] at hio'
    injection hio' with h
    exact h.symm
  have hpf : (if w.pidFile ≠ "" then w.createPidFile else none) = none := by
    by_cases hp : w.pidFile = ""
    · simp [hp]
    · simp [hp, hpid hp]
  have hn : (Event.handlerClose (newSignalHandler tty')) ∉ pre := fun hm => by
    have := hpre _ hm
    simp [Event.beforeStart] at this
  rw [hrun]
  simp only [hok, hpf, hd]
  refine ⟨⟨_, rfl⟩, ?_⟩
  by_cases hp : w.pidFile = "" <;>
    simp [hp, List.count_append, List.count_eq_zero.2 hn, List.count_cons]

/-- The forwarding path at a concrete run: the attached run of container `c1`
closes the handler that wraps handle 3, once. -/
theorem attached_forwarding_releases_tty_witness :
    startContainer demoWorld demoSpec =
      ⟨0, none,
        [Event.createLibcontainerConfig "c1" demoSpec, Event.osStat "/rootfs",
          Event.hostUID ⟨"/rootfs"⟩, Event.loadFactory,
          Event.factoryCreate ⟨1⟩ "c1" ⟨"/rootfs"⟩,
          Event.setupIOCall demoProcess 0 "" false false,
          Event.containerStart ⟨7⟩ demoProcess,
          Event.newSignalHandler ⟨3⟩, Event.forward ⟨⟨3⟩⟩ demoProcess,
          Event.handlerClose ⟨⟨3⟩⟩, Event.destroy ⟨7⟩]⟩ ∧
    (startContainer demoWorld demoSpec).trace.count
      (Event.handlerClose (newSignalHandler ⟨3⟩)) = 1 :=
  ⟨by decide, (attached_forwarding_releases_tty demoWorld demoSpec ⟨7⟩ demoProcess ⟨3⟩ rfl rfl
    (by decide) rfl (by decide)).2⟩

/-- C3 fails on the code: the handle returned by the IO setup is to be released
on every exit path, yet in each of three runs the IO setup returns handle 3 and
the run ends without any `handlerClose` call.  In the attached run whose Start
fails and in the attached run whose pid-file write fails, the `return` comes
before `defer handler.Close()` is registered, so the handle is left open while
the deferred destroy still runs; the detached run returns before a handler is
created. -/
theorem tty_not_released_off_forwarding_path :
    (startFailureWorld.setupIOResult = .ok ⟨3⟩ ∧
      startContainer startFailureWorld demoSpec =
        ⟨-1, some (Error.ext "exec format error" false),
          [Event.createLibcontainerConfig "c1" demoSpec, Event.osStat "/rootfs",
            Event.hostUID ⟨"/rootfs"⟩, Event.loadFactory,
            Event.factoryCreate ⟨1⟩ "c1" ⟨"/rootfs"⟩,
            Event.setupIOCall demoProcess 0 "" false false,
            Event.containerStart ⟨7⟩ demoProcess, Event.destroy ⟨7⟩]⟩ ∧
      Event.handlerClose (newSignalHandler ⟨3⟩) ∉
        (startContainer startFailureWorld demoSpec).trace) ∧
    (pidFileFailureWorld.setupIOResult = .ok ⟨3⟩ ∧
      startContainer pidFileFailureWorld demoSpec =
        ⟨-1, some (Error.ext "disk full" false),
          [Event.createLibcontainerConfig "c1" demoSpec, Event.osStat "/rootfs",
            Event.hostUID ⟨"/rootfs"⟩, Event.loadFactory,
            Event.factoryCreate ⟨1⟩ "c1" ⟨"/rootfs"⟩,
            Event.setupIOCall demoProcess 0 "" false false,
            Event.containerStart ⟨7⟩ demoProcess,
            Event.createPidFile "/run/c1.pid" demoProcess,
            Event.processSignal demoProcess SIGKILL, Event.processWait demoProcess,
            Event.destroy ⟨7⟩]⟩ ∧
      Event.handlerClose (newSignalHandler ⟨3⟩) ∉
        (startContainer pidFileFailureWorld demoSpec).trace) ∧
    (detachedWorld.setupIOResult = .ok ⟨3⟩ ∧
      startContainer detachedWorld demoSpec =
        ⟨0, none,
          [Event.createLibcontainerConfig "c1" demoSpec, Event.osStat "/rootfs",
            Event.hostUID ⟨"/rootfs"⟩, Event.loadFactory,
            Event.factoryCreate ⟨1⟩ "c1" ⟨"/rootfs"⟩,
            Event.setupIOCall demoProcess 0 "" false true,
            Event.containerStart ⟨7⟩ demoProcess]⟩ ∧
      Event.handlerClose (newSignalHandler ⟨3⟩) ∉
        (startContainer detachedWorld demoSpec).trace) :=
  ⟨⟨rfl, by decide, by decide⟩, ⟨rfl, by decide, by decide⟩, ⟨rfl, by decide, by decide⟩⟩

/-- C5: in every attached run (detach flag false) in which `container.Start`
succeeds and the pid-file write, when a path is given, succeeds, the pair
returned by `startContainer` is the pair returned by `forward` on the started
process, unmodified; and when that error is nil, the `start` action that made
the call ends in `os.Exit` with exactly the forwarded status. -/
theorem attached_status_is_forward_result (w : World) (spec : LinuxSpec)
    (c : Container) (p : Process)
    (hd : w.detach = false)
    (hstart : Event.containerStart c p ∈ (startContainer w spec).trace)
    (hok : w.containerStart = none)
    (hpid : w.pidFile ≠ "" → w.createPidFile = none) :
    ((startContainer w spec).status, (startContainer w spec).err) = w.forward ∧
    (∃ tty, w.setupIOResult = .ok tty ∧
      Event.forward (newSignalHandler tty) p ∈ (startContainer w spec).trace) ∧
    (w.forward.2 = none → ∀ spec0 : LinuxSpec,
      (w.bundle ≠ "" → w.chdir = none) → w.loadSpec = .ok spec0 → w.euid = 0 →
      spec = (if w.notifySocket ≠ "" then w.setupSdNotify spec0 w.notifySocket else spec0) →
      (startCommandAction w).control = Control.osExit w.forward.1) := by
  obtain ⟨pre, tty, hpre, -, hio, hrun⟩ := start_shape w spec c p hstart
  have hpf : (if w.pidFile ≠ "" then w.createPidFile else none) = none := by
    by_cases hp : w.pidFile = ""
    · simp [hp]
    · simp [hp, hpid hp]
  simp only [hok, hpf, hd] at hrun
  have hs : (startContainer w spec).status = w.forward.1 := by rw [hrun]; rfl
  have he : (startContainer w spec).err = w.forward.2 := by rw [hrun]; rfl
  refine ⟨by rw [hs, he], ⟨tty, hio, by rw [hrun]; simp⟩, ?_⟩
  intro hnil spec0 hch hls heuid hspec
  rw [hnil] at he
  unfold startCommandAction
  by_cases hb : w.bundle = "" <;> by_cases hn : w.notifySocket = "" <;>
    simp_all

/-- Witness for C5: under socket activation the contained process exits with
status 3, and the launcher exits with 3. -/
theorem attached_status_is_forward_result_witness :
    (startContainer activatedWorld demoSpec).status = 3 ∧
    (startCommandAction activatedWorld).control = Control.osExit 3 :=
  have h := attached_status_is_forward_result activatedWorld demoSpec ⟨7⟩ activatedProcess
    rfl (by decide) rfl (by decide)
  ⟨congrArg Prod.fst h.1, h.2.2 rfl demoSpec (by decide) rfl rfl rfl⟩

/-- C6: for every argument vector whose element at index 1 is "init" and for
every outcome of `StartInitialization`, `init` does not return to the command
dispatch: it first pins itself (one logical thread, locked to its OS thread)
and calls the routine; if the routine returns an error `err`, control ends in
`fatal(err)`; if it returns nil, control ends in `panic`; if it replaces the
process image, nothing of `init` runs afterwards. -/
theorem init_never_falls_through (osArgs : List String) (r : InitRoutine)
    (hinit : osArgs[1]? = some "init") :
    (init osArgs r).control ≠ Control.returns ∧
    (init osArgs r).trace = [Event.gomaxprocs 1, Event.lockOSThread,
      Event.libcontainerNew "", Event.startInitialization] ∧
    (∀ err, r = InitRoutine.returnsError err → (init osArgs r).control = fatal err) ∧
    (r = InitRoutine.returnsNil → (init osArgs r).control =
      Control.panic "--this line should have never been executed, congratulations--") ∧
    (r = InitRoutine.replacesImage → (init osArgs r).control = Control.imageReplaced) := by
  have hcond : osArgs.length > 1 ∧ osArgs.getD 1 "" = "init" := by
    match osArgs, hinit with
    | _ :: _ :: _, h => simpa using h
  unfold init
  rw [if_pos hcond]
  cases r <;> simp [fatal]

/-- Witness for C6: the re-executed launcher `runc init` whose initialization
routine returns nil panics. -/
theorem init_never_falls_through_witness :
    (init ["runc", "init"] InitRoutine.returnsNil).control ≠ Control.returns ∧
    (init ["runc", "init"] InitRoutine.returnsNil).control =
      Control.panic "--this line should have never been executed, congratulations--" :=
  have h := init_never_falls_through ["runc", "init"] InitRoutine.returnsNil rfl
  ⟨h.1, h.2.2.2.1 rfl⟩

/-- C7: in every run that gets past `factory.Create`, one and the same process
descriptor `P` is handed to the IO setup and (when the IO setup succeeds) to
`container.Start`.  With `base` the descriptor `newProcess` builds from the
spec's process template: if `LISTEN_FDS` is non-empty and `activation.Files`
yields `k > 0` descriptors, `P` has the environment of `base` followed by
exactly "LISTEN_FDS=k" (decimal) and "LISTEN_PID=1", in that order, and the
extra files of `base` followed by exactly those `k` descriptors in order, all
other fields being those of `base`; if `LISTEN_FDS` is empty or `k = 0`, `P` is
`base` unchanged.  When `newProcess` takes the environment over from the
template, the environment of `P` is therefore the spec's environment, followed
by the two activation entries exactly when the activation block applies. -/
theorem socket_activation_extends_process (w : World) (spec : LinuxSpec)
    (f : Factory) (i : String) (cfg : Config) (c : Container)
    (hcreate : Event.factoryCreate f i cfg ∈ (startContainer w spec).trace)
    (hc : w.factoryCreate = .ok c) :
    ∃ P : Process,
      (∃ uid, Event.setupIOCall P uid w.console spec.Process.Terminal w.detach ∈
        (startContainer w spec).trace) ∧
      (∀ q uid con tt d, Event.setupIOCall q uid con tt d ∈ (startContainer w spec).trace →
        q = P) ∧
      (∀ k q, Event.containerStart k q ∈ (startContainer w spec).trace → q = P) ∧
      ((∃ tty, w.setupIOResult = .ok tty) →
        Event.containerStart c P ∈ (startContainer w spec).trace) ∧
      (w.listenFdsEnv ≠ "" → 0 < w.activationFiles.length →
        P.Env = (w.newProcess spec.Process).Env ++
          ["LISTEN_FDS=" ++ toString w.activationFiles.length, "LISTEN_PID=1"] ∧
        P.ExtraFiles = (w.newProcess spec.Process).ExtraFiles ++ w.activationFiles ∧
        P.Args = (w.newProcess spec.Process).Args ∧
        P.User = (w.newProcess spec.Process).User ∧
        P.Cwd = (w.newProcess spec.Process).Cwd) ∧
      (w.listenFdsEnv = "" ∨ w.activationFiles.length = 0 → P = w.newProcess spec.Process) ∧
      ((w.newProcess spec.Process).Env = spec.Process.Env →
        P.Env = if w.listenFdsEnv ≠ "" ∧ 0 < w.activationFiles.length then
          spec.Process.Env ++
            ["LISTEN_FDS=" ++ toString w.activationFiles.length, "LISTEN_PID=1"]
        else spec.Process.Env) := by
  rcases run_shape w spec with ⟨-, hfail⟩ |
    ⟨cfg', uid, f', c', P, A, D, pre, -, -, -, -, -, hc', hP, hA, hD, hpre, hrun⟩
  · obtain ⟨err, herr⟩ := hfail ⟨f, i, cfg, hcreate⟩
    rw [hc] at herr
    cases herr
  · obtain rfl : c' = c := by
      rw [hc] at hc'
      injection hc' with h
      exact h.symm
    clear hcreate
    have hio_mem : Event.setupIOCall P uid w.console spec.Process.Terminal w.detach ∈ pre := by
      simp [hpre]
    have hio_eq : ∀ q uid' con tt d, Event.setupIOCall q uid' con tt d ∈ pre → q = P := by
      intro q uid' con tt d hm
      rw [hpre, hA] at hm
      by_cases hl : w.listenFdsEnv = "" <;> simp [hl] at hm <;> exact hm.1
    have hst_pre : ∀ k q, Event.containerStart k q ∉ pre := by
      intro k q hm
      rw [hpre, hA] at hm
      by_cases hl : w.listenFdsEnv = "" <;> simp [hl] at hm
    clear hpre
    refine ⟨P, ⟨uid, ?_⟩, ?_, ?_, ?_, ?_, ?_, ?_⟩
    · have hsub : ∀ e ∈ pre, e ∈ (startContainer w spec).trace := by
        intro e he
        rw [hrun]
        cases hio : w.setupIOResult <;> cases hst : w.containerStart <;>
          by_cases hp : w.pidFile = "" <;> cases hcp : w.createPidFile <;>
          cases hd : w.detach <;> simp [hp, he]
      exact hsub _ hio_mem
    · intro q uid' con tt d hm
      rw [hrun, hD] at hm
      refine hio_eq q uid' con tt d ?_
      cases hio : w.setupIOResult <;> cases hst : w.containerStart <;>
        by_cases hp : w.pidFile = "" <;> cases hcp : w.createPidFile <;>
        cases hd : w.detach <;> simp [hio, hst, hp, hcp, hd] at hm <;> exact hm
    · intro k q hm
      rw [hrun, hD] at hm
      cases hio : w.setupIOResult <;> cases hst : w.containerStart <;>
        by_cases hp : w.pidFile = "" <;> cases hcp : w.createPidFile <;>
        cases hd : w.detach <;> simp [hio, hst, hp, hcp, hd, hst_pre] at hm <;> exact hm.2
    · rintro ⟨tty, hio⟩
      rw [hrun, hio]
      cases hst : w.containerStart <;>
        by_cases hp : w.pidFile = "" <;> cases hcp : w.createPidFile <;>
        cases hd : w.detach <;> simp [hp]
    · intro hl hk
      simp [hP, hl, hk]
    · intro h
      rcases h with h | h <;> simp [hP, h]
    · intro henv
      by_cases hl : w.listenFdsEnv ≠ "" ∧ 0 < w.activationFiles.length <;>
        simp [hP, hl, henv]

/-- Witness for C7: with `LISTEN_FDS=2` and inherited descriptors 3 and 4, the
descriptor handed to `container.Start` is the template's followed by the two
activation variables and the two descriptors. -/
theorem socket_activation_extends_process_witness :
    startContainer activatedWorld demoSpec =
      ⟨3, none,
        [Event.createLibcontainerConfig "c1" demoSpec, Event.osStat "/rootfs",
          Event.hostUID ⟨"/rootfs"⟩, Event.loadFactory,
          Event.factoryCreate ⟨1⟩ "c1" ⟨"/rootfs"⟩, Event.activationFiles false,
          Event.setupIOCall activatedProcess 0 "" false false,
          Event.containerStart ⟨7⟩ activatedProcess,
          Event.newSignalHandler ⟨3⟩, Event.forward ⟨⟨3⟩⟩ activatedProcess,
          Event.handlerClose ⟨⟨3⟩⟩, Event.destroy ⟨7⟩]⟩ ∧
    ∃ P : Process,
      Event.containerStart ⟨7⟩ P ∈ (startContainer activatedWorld demoSpec).trace ∧
      P.Env = ["PATH=/bin", "TERM=xterm", "LISTEN_FDS=2", "LISTEN_PID=1"] ∧
      P.ExtraFiles = [⟨3⟩, ⟨4⟩] :=
  ⟨by decide,
    (socket_activation_extends_process activatedWorld demoSpec ⟨1⟩ "c1" ⟨"/rootfs"⟩ ⟨7⟩
      (by decide) rfl).elim
      fun P hP => ⟨P, hP.2.2.2.1 ⟨⟨3⟩, rfl⟩,
        (hP.2.2.2.2.1 (by decide) (by decide)).1.trans (by decide),
        (hP.2.2.2.2.1 (by decide) (by decide)).2.1⟩⟩

/-- C10: in every run in which `factory.Create` is called and succeeds with
container `c`, destroy is called on `c` exactly once when the detach flag is
false and never when it is true, and on no other container; when called it is
the last call of the run, whichever later step caused the return, and on the
forwarding path it comes right after the signal handler is closed.  In a run in
which `factory.Create` is not called, or fails, destroy is never called. -/
theorem deferred_destroy_after_create (w : World) (spec : LinuxSpec) :
    (∀ f i cfg c, Event.factoryCreate f i cfg ∈ (startContainer w spec).trace →
      w.factoryCreate = .ok c →
      (startContainer w spec).trace.count (Event.destroy c) = (if w.detach then 0 else 1) ∧
      (∀ k, Event.destroy k ∈ (startContainer w spec).trace → k = c) ∧
      (w.detach = false → (startContainer w spec).trace.getLast? = some (Event.destroy c)) ∧
      (∀ h q, Event.forward h q ∈ (startContainer w spec).trace →
        ∃ pre, (startContainer w spec).trace =
          pre ++ [Event.forward h q, Event.handlerClose h, Event.destroy c])) ∧
    ((∀ f i cfg c, Event.factoryCreate f i cfg ∈ (startContainer w spec).trace →
        w.factoryCreate ≠ .ok c) →
      ∀ k, Event.destroy k ∉ (startContainer w spec).trace) := by
  constructor
  · intro f i cfg c hcreate hc
    obtain ⟨body, htrace, hnd, hfw⟩ := created_shape w spec f i cfg c hcreate hc
    rw [htrace]
    refine ⟨?_, ?_, ?_, ?_⟩
    · cases hd : w.detach <;> simp [List.count_append, List.count_eq_zero.2 (hnd c)]
    · intro k hk
      cases hd : w.detach <;> simp [hd, hnd] at hk
      exact hk
    · intro hd
      simp [hd]
    · intro h q hm
      have hmb : Event.forward h q ∈ body := by
        cases hd : w.detach <;> simp [hd] at hm <;> exact hm
      obtain ⟨hd, pre, hpre⟩ := hfw h q hmb
      exact ⟨pre, by simp [hd, hpre]⟩
  · intro hno k hk
    rcases run_shape w spec with ⟨hearly, -⟩ |
      ⟨cfg', uid, f', c', P, A, D, pre, -, -, -, -, -, hc', hP, hA, hD, hpre, hrun⟩
    · have := hearly _ hk
      simp [Event.beforeStart] at this
    · refine hno f' (First w.args) cfg' c' ?_ hc'
      rw [hrun, hpre]
      cases hio : w.setupIOResult <;> cases hst : w.containerStart <;>
        by_cases hp : w.pidFile = "" <;> cases hcp : w.createPidFile <;>
        cases hd : w.detach <;> simp [hp]

/-- Witness for C10: an attached run whose IO setup fails still destroys the
container it created, as its last call. -/
theorem deferred_destroy_after_create_witness :
    startContainer ioFailureWorld demoSpec =
      ⟨-1, some (Error.ext "no console" false),
        [Event.createLibcontainerConfig "c1" demoSpec, Event.osStat "/rootfs",
          Event.hostUID ⟨"/rootfs"⟩, Event.loadFactory,
          Event.factoryCreate ⟨1⟩ "c1" ⟨"/rootfs"⟩,
          Event.setupIOCall demoProcess 0 "" false false, Event.destroy ⟨7⟩]⟩ ∧
    (startContainer ioFailureWorld demoSpec).trace.count (Event.destroy ⟨7⟩) = 1 :=
  ⟨by decide, ((deferred_destroy_after_create ioFailureWorld demoSpec).1 ⟨1⟩ "c1" ⟨"/rootfs"⟩
    ⟨7⟩ (by decide) rfl).1⟩

end Runc
